import Mathlib

/-!
# Verification of the authenticated request pipeline

Shallow embedding of the auth pipeline of the AI_Healthchatbot frontend
(`src/frontend/src/context/AuthContext.jsx` and `src/frontend/src/utils/api.js`).

The pipeline is JavaScript running under single-threaded cooperative
scheduling: each synchronous block of an interceptor handler runs
atomically; suspension happens only at `await` points (the transport call
and the refresh network call).  We model it as a small-step transition
system: the scheduler delivers events (a 401/422 response to some request,
the settling of the in-flight refresh call, a success response), and each
event's handler — a synchronous block in the source — is one atomic step.

Promise semantics note: `resolve`/`reject` on a queued waiter only settles
its promise; the waiter's continuation runs strictly after the current
synchronous block.  Hence a waiter "observes" state no earlier than the
post-state of the step that released it.
-/

/-- The three persisted localStorage entries used by the auth pipeline
(`access_token`, `refresh_token`, `user`). -/
structure Store where
  access_token : Option String
  refresh_token : Option String
  user : Option String
deriving Repr, DecidableEq

/-- `localStorage` with all three entries absent (after `clear()` or after
the three `removeItem` calls). -/
def Store.empty : Store := ⟨none, none, none⟩

/-- Phase of a single request flowing through the response interceptor
(`AuthContext.jsx` lines 51–140). `replaying r` is a request resent via
`api(originalRequest)`, carrying its `_retry` mark `r`. -/
inductive ReqPhase where
  | pending
  | enqueued
  | awaitingRefresh
  | replaying (retry : Bool)
  | done
  | rejectedFinal
deriving Repr, DecidableEq

/-- Global mutable state shared by all interceptor handlers:
the persisted store, the module-level `isRefreshing` flag and `failedQueue`
(lines 17–19), the axios instance's default `Authorization` header,
plus instrumentation: how many refresh network calls are currently
outstanding and how many were ever issued, and whether the handler
navigated to `/login`. -/
structure SysState where
  store : Store
  isRefreshing : Bool
  failedQueue : List Nat
  reqs : List ReqPhase
  outstanding : Nat
  refreshIssued : Nat
  defaultAuth : Option String
  redirected : Bool
deriving Repr, DecidableEq

/-- Scheduler events: request `i` receives a 401/422 response; the
in-flight refresh call settles successfully (with the new access token and
an optional rotated refresh token in the response body) or fails; request
`i` receives a business (success) response. -/
inductive Event where
  | fail401 (i : Nat)
  | refreshOk (tok : String) (rotated : Option String)
  | refreshErr
  | respondOk (i : Nat)
deriving Repr, DecidableEq

/-- `processQueue(null, token)` (lines 21–30) followed by the replay of
released requests: an enqueued waiter's `.then` sets the header and calls
`api(originalRequest)` — without setting `_retry` (lines 66–73) — while
the leader replays at line 118 with `_retry` already `true` (line 76). -/
def releaseOk : ReqPhase → ReqPhase
  | .enqueued => .replaying false
  | .awaitingRefresh => .replaying true
  | p => p

/-- `processQueue(error)` (lines 21–30): every waiter's promise is
rejected; the leader's handler returns `Promise.reject(refreshError)`
(line 134). -/
def releaseErr : ReqPhase → ReqPhase
  | .enqueued => .rejectedFinal
  | .awaitingRefresh => .rejectedFinal
  | p => p

/-- The synchronous block run when a response with status 401 or 422
reaches the response interceptor for a request whose `_retry` mark is
`retryMark` (lines 63–99).  If the mark is set, the error propagates
(line 138).  If a refresh is already in flight, the request is pushed
onto `failedQueue` (lines 64–74).  Otherwise the handler sets
`_retry = true` and `isRefreshing = true` (lines 76–77) and reads the
refresh token: if absent it clears localStorage, navigates to `/login`
and rejects (lines 81–86) — leaving `isRefreshing` set and the queue
untouched; if present it issues the refresh network call (lines 88–99)
and suspends. -/
def handleAuthFail (s : SysState) (i : Nat) (retryMark : Bool) : SysState :=
  if retryMark then
    { s with reqs := s.reqs.set i .rejectedFinal }
  else if s.isRefreshing then
    { s with failedQueue := s.failedQueue ++ [i],
             reqs := s.reqs.set i .enqueued }
  else
    match s.store.refresh_token with
    | none =>
        { s with isRefreshing := true,
                 store := Store.empty,
                 redirected := true,
                 reqs := s.reqs.set i .rejectedFinal }
    | some _ =>
        { s with isRefreshing := true,
                 outstanding := s.outstanding + 1,
                 refreshIssued := s.refreshIssued + 1,
                 reqs := s.reqs.set i .awaitingRefresh }

/-- One atomic step of the event loop.  An event whose handler is not
enabled in `s` (e.g. a refresh settling when none is outstanding, or a
response for a request that cannot receive one) is a no-op: the scheduler
can never deliver it.

`refreshOk tok rotated` is the `try` continuation (lines 101–118): store
the new access token, update the axios default header and release the
queue; the `rotated` refresh token in the response body is ignored — the
source destructures only `access_token` (line 101) and never writes
`refresh_token`.  `refreshErr` is the `catch` block (lines 119–135):
reject the queue, reset the flag, remove the three persisted entries and
navigate to `/login`; the default header is not touched. -/
def stepF (s : SysState) (e : Event) : SysState :=
  match e with
  | .fail401 i =>
      match s.reqs.get? i with
      | some .pending => handleAuthFail s i false
      | some (.replaying r) => handleAuthFail s i r
      | _ => s
  | .refreshOk tok _rotated =>
      if s.outstanding = 0 then s
      else
        { s with store := { s.store with access_token := some tok },
                 defaultAuth := some ("Bearer " ++ tok),
                 reqs := s.reqs.map releaseOk,
                 failedQueue := [],
                 isRefreshing := false,
                 outstanding := s.outstanding - 1 }
  | .refreshErr =>
      if s.outstanding = 0 then s
      else
        { s with store := Store.empty,
                 reqs := s.reqs.map releaseErr,
                 failedQueue := [],
                 isRefreshing := false,
                 outstanding := s.outstanding - 1,
                 redirected := true }
  | .respondOk i =>
      match s.reqs.get? i with
      | some .pending => { s with reqs := s.reqs.set i .done }
      | some (.replaying _) => { s with reqs := s.reqs.set i .done }
      | _ => s

/-- Run a finite schedule of events. -/
def runEvents (s : SysState) (evs : List Event) : SysState :=
  evs.foldl stepF s

/-- Initial state: `n` requests in flight, no refresh running, empty
queue, module-level flags at their initial values (lines 17–19). -/
def init (n : Nat) (store₀ : Store) (d : Option String) : SysState :=
  { store := store₀, isRefreshing := false, failedQueue := [],
    reqs := List.replicate n .pending, outstanding := 0,
    refreshIssued := 0, defaultAuth := d, redirected := false }

/-! ## The axios request configs (for the timeout claim)

`axios.create` at lines 9–15 and the refresh `axios.post` at lines 88–99
pass configuration objects; neither sets `timeout` (axios's default is
unbounded). -/

/-- The fields of an axios request/instance config that the source sets,
plus `timeout` (absent means axios's default: no bound). -/
structure AxiosConfig where
  url : String
  authHeader : Option String
  contentType : Option String
  timeout : Option Nat
deriving Repr, DecidableEq

/-- The config of the refresh call
`axios.post(API_URL + "/refresh", {}, { headers: { Authorization: Bearer rt, Content-Type: application/json } })`
(lines 90–99): no `timeout` field is present. -/
def refreshRequestConfig (apiUrl rt : String) : AxiosConfig :=
  { url := apiUrl ++ "/refresh",
    authHeader := some ("Bearer " ++ rt),
    contentType := some "application/json",
    timeout := none }

/-! ## SessionManager: checkAuth, login, logout, apiService.logout -/

/-- Outcome of the bootstrap verification call `api.get('/user')` as seen
by `checkAuth`'s `catch`: success with a (serialized) profile, an HTTP
error with a status (`error.response?.status`), or a transport/network
error with no HTTP response at all. -/
inductive VerifyOutcome where
  | success (profile : String)
  | httpError (status : Nat)
  | networkError
deriving Repr, DecidableEq

/-- The client-visible session state: the persisted store, the React
`user` state, the axios default `Authorization` header, and the
`loading` flag. -/
structure SessionState where
  store : Store
  user : Option String
  defaultAuth : Option String
  loading : Bool
deriving Repr, DecidableEq

/-- `logout()` (lines 290–297): remove the three persisted entries,
delete the axios default `Authorization` header, `setUser(null)`.
A total function — removing an absent entry and deleting an absent
property are no-ops in JavaScript, so no error is thrown. -/
def logoutFun (s : SessionState) : SessionState :=
  { store := Store.empty, user := none, defaultAuth := none,
    loading := s.loading }

/-- The store/header mutation performed by the interceptor's terminal
refresh-failure path (lines 125–127): the three entries are removed but
the default header and the React user state are not touched there. -/
def terminalClear (s : SessionState) : SessionState :=
  { s with store := Store.empty }

/-- `apiService.logout` (`api.js` lines 9–13): removes the three
persisted entries and nothing else — in particular it does not delete
`api.defaults.headers.common['Authorization']`. -/
def apiServiceLogout (s : SessionState) : SessionState :=
  { s with store := Store.empty }

/-- The success path of `login(credentials)` (lines 208–230): persist the
three entries, set the axios default `Authorization` header, `setUser`. -/
def loginSuccess (s : SessionState) (at_ rt u : String) : SessionState :=
  { store := ⟨some at_, some rt, some u⟩, user := some u,
    defaultAuth := some ("Bearer " ++ at_), loading := s.loading }

/-- The `Authorization` header an outgoing request is actually sent with.
axios merges `defaults.headers.common` into the per-request config before
the request interceptors run, so the interceptor (lines 33–43) sees the
default header already present and overwrites it only when
`localStorage.getItem('access_token')` is non-null; otherwise the merged
default goes out unchanged. -/
def sentAuthHeader (s : SessionState) : Option String :=
  match s.store.access_token with
  | some t => some ("Bearer " ++ t)
  | none => s.defaultAuth

/-- `checkAuth()` (lines 151–206), with the verification call's outcome
made explicit.  With a cached token and cached user present, the cached
user is set optimistically, then the verification result is reconciled:
success replaces the profile (state and store); status 404 calls
`logout()`; status 401/422 keeps the cached user; any other HTTP status
or a network error keeps the cached user.  (JSON round-tripping of the
stored profile is abstracted: the stored string is the profile.)
Without a cached token+user nothing happens.  Finally `loading := false`. -/
def checkAuth (s : SessionState) (outcome : VerifyOutcome) : SessionState :=
  match s.store.access_token, s.store.user with
  | some _, some savedUser =>
      let s' :=
        match outcome with
        | .success p =>
            { s with user := some p, store := { s.store with user := some p } }
        | .httpError st =>
            if st = 404 then logoutFun s
            else { s with user := some savedUser }
        | .networkError => { s with user := some savedUser }
      { s' with loading := false }
  | _, _ => { s with loading := false }

/-! ## Claims about SessionManager -/

/-- C7: when `checkAuth()` starts with a cached credential and cached
profile and the verification call fails with a transport/network error
(no HTTP status at all), the session stays logged-in with the cached
profile and the persisted store is untouched. -/
theorem checkAuth_network_error_keeps_session
    (s : SessionState) (a u : String)
    (hA : s.store.access_token = some a) (hU : s.store.user = some u) :
    (checkAuth s .networkError).store = s.store ∧
    (checkAuth s .networkError).user = some u := by
  simp [checkAuth, hA, hU]

theorem checkAuth_network_error_keeps_session_witness :
    (checkAuth ⟨⟨some "a", some "r", some "{}"⟩, some "{}", none, true⟩
        .networkError).store = ⟨some "a", some "r", some "{}"⟩ ∧
    (checkAuth ⟨⟨some "a", some "r", some "{}"⟩, some "{}", none, true⟩
        .networkError).user = some "{}" :=
  checkAuth_network_error_keeps_session _ "a" "{}" rfl rfl

/-- C8: when `checkAuth()` starts with a cached credential and cached
profile and the verification call fails with HTTP 404, `logout()` runs:
all three persisted entries end up absent and the session is logged out. -/
theorem checkAuth_404_logs_out
    (s : SessionState) (a u : String)
    (hA : s.store.access_token = some a) (hU : s.store.user = some u) :
    (checkAuth s (.httpError 404)).store.access_token = none ∧
    (checkAuth s (.httpError 404)).store.refresh_token = none ∧
    (checkAuth s (.httpError 404)).store.user = none ∧
    (checkAuth s (.httpError 404)).user = none := by
  simp [checkAuth, hA, hU, logoutFun, Store.empty]

theorem checkAuth_404_logs_out_witness :
    (checkAuth ⟨⟨some "a", some "r", some "{}"⟩, some "{}", none, true⟩
        (.httpError 404)).store.access_token = none ∧
    (checkAuth ⟨⟨some "a", some "r", some "{}"⟩, some "{}", none, true⟩
        (.httpError 404)).store.refresh_token = none ∧
    (checkAuth ⟨⟨some "a", some "r", some "{}"⟩, some "{}", none, true⟩
        (.httpError 404)).store.user = none ∧
    (checkAuth ⟨⟨some "a", some "r", some "{}"⟩, some "{}", none, true⟩
        (.httpError 404)).user = none :=
  checkAuth_404_logs_out _ "a" "{}" rfl rfl

/-- C9: `logout()` empties the store and logs the session out, is
idempotent, and composes in either order with the interceptor's
terminal-failure clearing to the same final state.  `logoutFun` is a
total function: in the source each `removeItem`/`delete` on an absent
entry is a no-op, so a second or racing call throws no error. -/
theorem logout_idempotent (s : SessionState) :
    (logoutFun s).store = Store.empty ∧
    (logoutFun s).user = none ∧
    logoutFun (logoutFun s) = logoutFun s ∧
    logoutFun (terminalClear s) = logoutFun s ∧
    terminalClear (logoutFun s) = logoutFun s := by
  simp [logoutFun, terminalClear, Store.empty]

/-- C10: `apiService.logout` empties the three persisted entries but
leaves the axios default `Authorization` header in place; after a login
(which set that default header) followed by `apiService.logout`, the next
request through the pipeline is still sent with the previous bearer
token, not unauthenticated. -/
theorem apiServiceLogout_leaves_default_header (s : SessionState)
    (at_ rt u : String) :
    (apiServiceLogout (loginSuccess s at_ rt u)).store = Store.empty ∧
    (apiServiceLogout (loginSuccess s at_ rt u)).defaultAuth
      = some ("Bearer " ++ at_) ∧
    sentAuthHeader (apiServiceLogout (loginSuccess s at_ rt u))
      = some ("Bearer " ++ at_) := by
  simp [apiServiceLogout, loginSuccess, sentAuthHeader, Store.empty]

/-! ## Claims about the refresh settle paths -/

/-- C5 counterexample: one request triggers a refresh; the server's
refresh response carries both a new access token and a rotated refresh
token, yet the stored refresh token is still the old one — the source
destructures only `access_token` from the response (line 101) and never
writes `refresh_token`. -/
theorem rotated_refresh_token_ignored :
    (runEvents (init 1 ⟨some "a0", some "r1", some "u"⟩ none)
        [.fail401 0, .refreshOk "a1" (some "r2")]).store.refresh_token
      = some "r1" ∧
    (runEvents (init 1 ⟨some "a0", some "r1", some "u"⟩ none)
        [.fail401 0, .refreshOk "a1" (some "r2")]).store.refresh_token
      ≠ some "r2" := by
  constructor <;> decide

/-- C5 amended: on refresh success the new access token is stored (and
the axios default header updated) in the same atomic block that resolves
the waiters, so every waiter is released with the token already stored;
but a rotated refresh token in the response is ignored — the persisted
refresh token is unchanged. -/
theorem refresh_success_stores_access_only
    (s : SysState) (tok : String) (rot : Option String)
    (h : s.outstanding ≠ 0) :
    (stepF s (.refreshOk tok rot)).store.access_token = some tok ∧
    (stepF s (.refreshOk tok rot)).store.refresh_token
      = s.store.refresh_token ∧
    (stepF s (.refreshOk tok rot)).defaultAuth = some ("Bearer " ++ tok) ∧
    ∀ j, s.reqs.get? j = some .enqueued →
      (stepF s (.refreshOk tok rot)).reqs.get? j
        = some (.replaying false) := by
  refine ⟨by simp [stepF, h], by simp [stepF, h], by simp [stepF, h], ?_⟩
  intro j hj
  have hm : (s.reqs.map releaseOk).get? j = (s.reqs.get? j).map releaseOk := by
    simp [List.get?_eq_getElem?]
  simp only [stepF, if_neg h]
  rw [hm, hj]
  rfl

theorem refresh_success_stores_access_only_witness :
    (stepF ⟨⟨some "a0", some "r1", some "u"⟩, true, [1],
        [.awaitingRefresh, .enqueued], 1, 1, none, false⟩
        (.refreshOk "a1" none)).store.access_token = some "a1" ∧
    (stepF ⟨⟨some "a0", some "r1", some "u"⟩, true, [1],
        [.awaitingRefresh, .enqueued], 1, 1, none, false⟩
        (.refreshOk "a1" none)).store.refresh_token = some "r1" :=
  ⟨(refresh_success_stores_access_only
      ⟨⟨some "a0", some "r1", some "u"⟩, true, [1],
        [.awaitingRefresh, .enqueued], 1, 1, none, false⟩
      "a1" none (by decide)).1,
   (refresh_success_stores_access_only
      ⟨⟨some "a0", some "r1", some "u"⟩, true, [1],
        [.awaitingRefresh, .enqueued], 1, 1, none, false⟩
      "a1" none (by decide)).2.1⟩

/-- C6 counterexample: the axios config the source builds for the refresh
call (lines 90–99) contains no `timeout` field at all — axios's default
is no bound — so no explicit finite timeout bounds the refresh call. -/
theorem refresh_call_has_no_timeout :
    (refreshRequestConfig "http://localhost:5000/api" "r").timeout
      = none := rfl

/-- C6 amended: the refresh call is issued with no explicit timeout; any
failure the environment delivers for it (including a transport-level
timeout) is handled by the terminal path: all waiters rejected, the
three persisted entries removed, the coordinator flag reset. -/
theorem refresh_unbounded_but_errors_terminal
    (apiUrl rt : String) (s : SysState) (h : s.outstanding ≠ 0) :
    (refreshRequestConfig apiUrl rt).timeout = none ∧
    (stepF s .refreshErr).store = Store.empty ∧
    (stepF s .refreshErr).isRefreshing = false ∧
    (stepF s .refreshErr).failedQueue = [] ∧
    ∀ j, s.reqs.get? j = some .enqueued →
      (stepF s .refreshErr).reqs.get? j = some .rejectedFinal := by
  refine ⟨rfl, by simp [stepF, h], by simp [stepF, h], by simp [stepF, h], ?_⟩
  intro j hj
  have hm : (s.reqs.map releaseErr).get? j = (s.reqs.get? j).map releaseErr := by
    simp [List.get?_eq_getElem?]
  simp only [stepF, if_neg h]
  rw [hm, hj]
  rfl

theorem refresh_unbounded_but_errors_terminal_witness :
    (refreshRequestConfig "http://localhost:5000/api" "r").timeout = none ∧
    (stepF ⟨⟨some "a0", some "r1", some "u"⟩, true, [1],
        [.awaitingRefresh, .enqueued], 1, 1, none, false⟩
        .refreshErr).store = Store.empty :=
  ⟨(refresh_unbounded_but_errors_terminal "http://localhost:5000/api" "r"
      ⟨⟨some "a0", some "r1", some "u"⟩, true, [1],
        [.awaitingRefresh, .enqueued], 1, 1, none, false⟩ (by decide)).1,
   (refresh_unbounded_but_errors_terminal "http://localhost:5000/api" "r"
      ⟨⟨some "a0", some "r1", some "u"⟩, true, [1],
        [.awaitingRefresh, .enqueued], 1, 1, none, false⟩ (by decide)).2.1⟩

/-! ## Single-flight invariant machinery -/

/-- At most one refresh call outstanding, and none outstanding unless the
`isRefreshing` flag is set. -/
def InvOne (s : SysState) : Prop :=
  s.outstanding ≤ 1 ∧ (s.isRefreshing = false → s.outstanding = 0)

theorem invOne_handle (s : SysState) (i : Nat) (m : Bool) (h : InvOne s) :
    InvOne (handleAuthFail s i m) := by
  obtain ⟨h1, h2⟩ := h
  unfold handleAuthFail
  split
  · exact ⟨h1, h2⟩
  split
  · exact ⟨h1, h2⟩
  next hnr =>
  have hb : s.isRefreshing = false := by
    simpa using hnr
  have h0 : s.outstanding = 0 := h2 hb
  split
  · exact ⟨by simp [h0], fun hh => by simp at hh⟩
  · exact ⟨by simp [h0], fun hh => by simp at hh⟩

theorem invOne_step (s : SysState) (e : Event) (h : InvOne s) :
    InvOne (stepF s e) := by
  obtain ⟨h1, h2⟩ := h
  cases e with
  | fail401 i =>
      simp only [stepF]
      cases hg : s.reqs.get? i with
      | none => exact ⟨h1, h2⟩
      | some p =>
          cases p with
          | pending => exact invOne_handle s i false ⟨h1, h2⟩
          | replaying r => exact invOne_handle s i r ⟨h1, h2⟩
          | enqueued => exact ⟨h1, h2⟩
          | awaitingRefresh => exact ⟨h1, h2⟩
          | done => exact ⟨h1, h2⟩
          | rejectedFinal => exact ⟨h1, h2⟩
  | refreshOk tok rot =>
      simp only [stepF]
      split
      · exact ⟨h1, h2⟩
      · exact ⟨by simp; omega, fun _ => by simp; omega⟩
  | refreshErr =>
      simp only [stepF]
      split
      · exact ⟨h1, h2⟩
      · exact ⟨by simp; omega, fun _ => by simp; omega⟩
  | respondOk i =>
      simp only [stepF]
      cases hg : s.reqs.get? i with
      | none => exact ⟨h1, h2⟩
      | some p =>
          cases p with
          | pending => exact ⟨h1, h2⟩
          | replaying r => exact ⟨h1, h2⟩
          | enqueued => exact ⟨h1, h2⟩
          | awaitingRefresh => exact ⟨h1, h2⟩
          | done => exact ⟨h1, h2⟩
          | rejectedFinal => exact ⟨h1, h2⟩

theorem invOne_run (s : SysState) (evs : List Event) (h : InvOne s) :
    InvOne (runEvents s evs) := by
  induction evs generalizing s with
  | nil => exact h
  | cons e evs ih => exact ih (stepF s e) (invOne_step s e h)

/-- A 401 arriving while `isRefreshing` is set issues no refresh call and
leaves the flag set, whatever phase the request is in. -/
theorem refreshing_fail401_no_issue (s : SysState) (j : Nat)
    (h : s.isRefreshing = true) :
    (stepF s (.fail401 j)).refreshIssued = s.refreshIssued ∧
    (stepF s (.fail401 j)).isRefreshing = true := by
  simp only [stepF]
  cases hg : s.reqs.get? j with
  | none => exact ⟨rfl, h⟩
  | some p =>
      cases p with
      | pending => simp [handleAuthFail, h]
      | replaying r =>
          cases r with
          | false => simp [handleAuthFail, h]
          | true => simp [handleAuthFail, h]
      | enqueued => exact ⟨rfl, h⟩
      | awaitingRefresh => exact ⟨rfl, h⟩
      | done => exact ⟨rfl, h⟩
      | rejectedFinal => exact ⟨rfl, h⟩

theorem refreshing_run_fail401s (s : SysState) (js : List Nat)
    (h : s.isRefreshing = true) :
    (runEvents s (js.map .fail401)).refreshIssued = s.refreshIssued ∧
    (runEvents s (js.map .fail401)).isRefreshing = true := by
  induction js generalizing s with
  | nil => exact ⟨rfl, h⟩
  | cons j js ih =>
      obtain ⟨e1, e2⟩ := refreshing_fail401_no_issue s j h
      obtain ⟨f1, f2⟩ := ih (stepF s (.fail401 j)) e2
      exact ⟨f1.trans e1, f2⟩

/-- The first 401 from the initial state, with a refresh token stored,
makes its request the leader: exactly one refresh call is issued. -/
theorem init_fail401_leader (n : Nat) (store₀ : Store) (d : Option String)
    (i : Nat) (rt : String) (hi : i < n)
    (hrt : store₀.refresh_token = some rt) :
    (stepF (init n store₀ d) (.fail401 i)).refreshIssued = 1 ∧
    (stepF (init n store₀ d) (.fail401 i)).isRefreshing = true := by
  have hg : (init n store₀ d).reqs.get? i = some .pending := by
    simp [init, List.get?_eq_getElem?, hi]
  simp only [stepF, hg]
  simp [handleAuthFail, init, hrt]

/-- A pending request whose 401 arrives while a refresh is in flight is
enqueued onto `failedQueue` — nothing else changes. -/
theorem refreshing_fail401_enqueues (s : SysState) (j : Nat)
    (h : s.isRefreshing = true) (hj : s.reqs.get? j = some .pending) :
    stepF s (.fail401 j) =
      { s with failedQueue := s.failedQueue ++ [j],
               reqs := s.reqs.set j .enqueued } := by
  simp only [stepF, hj]
  simp [handleAuthFail, h]

/-! ## Claims about the refresh coordinator -/

/-- C1: single-flight refresh.  (a) In any execution where N ≥ 2
concurrent requests each receive a 401/422 before the refresh settles
(here: a leading 401 followed by any further 401 deliveries), exactly one
refresh network call is issued.  (b) In every reachable state at most one
refresh call is outstanding.  (c) A pending request whose 401 arrives
while the refresh is in flight is enqueued on `failedQueue` — no second
refresh call. -/
theorem single_flight_refresh
    (n : Nat) (store₀ : Store) (d : Option String) (rt : String)
    (i : Nat) (js : List Nat)
    (hrt : store₀.refresh_token = some rt) (hi : i < n) :
    (runEvents (init n store₀ d)
        ((i :: js).map Event.fail401)).refreshIssued = 1 ∧
    (∀ evs : List Event, (runEvents (init n store₀ d) evs).outstanding ≤ 1) ∧
    (∀ (s : SysState) (j : Nat), s.isRefreshing = true →
        s.reqs.get? j = some .pending →
        stepF s (.fail401 j) =
          { s with failedQueue := s.failedQueue ++ [j],
                   reqs := s.reqs.set j .enqueued }) := by
  refine ⟨?_, ?_, ?_⟩
  · obtain ⟨e1, e2⟩ := init_fail401_leader n store₀ d i rt hi hrt
    obtain ⟨f1, f2⟩ :=
      refreshing_run_fail401s (stepF (init n store₀ d) (.fail401 i)) js e2
    show (runEvents (stepF (init n store₀ d) (.fail401 i))
        (js.map Event.fail401)).refreshIssued = 1
    rw [f1, e1]
  · intro evs
    exact (invOne_run (init n store₀ d) evs
      ⟨by simp [init], fun _ => by simp [init]⟩).1
  · intro s j hs hj
    exact refreshing_fail401_enqueues s j hs hj

theorem single_flight_refresh_witness :
    (runEvents (init 2 ⟨some "a", some "r", some "u"⟩ none)
        ([0, 1].map Event.fail401)).refreshIssued = 1 :=
  (single_flight_refresh 2 ⟨some "a", some "r", some "u"⟩ none "r" 0 [1]
      rfl (by decide)).1

/-- C2: the terminal refresh-failure block (the `catch` at lines
119–135) rejects every enqueued waiter, empties the queue, resets the
flag and removes all three persisted entries in one atomic synchronous
block.  A waiter's rejection continuation is a microtask that runs only
after this block, i.e. no earlier than the post-state proved here — so
at its release every waiter observes an empty credential store (and
absent credential means logged-out). -/
theorem terminal_failure_clears_before_release
    (s : SysState) (h : s.outstanding ≠ 0) :
    (stepF s .refreshErr).store.access_token = none ∧
    (stepF s .refreshErr).store.refresh_token = none ∧
    (stepF s .refreshErr).store.user = none ∧
    (stepF s .refreshErr).isRefreshing = false ∧
    (stepF s .refreshErr).failedQueue = [] ∧
    ∀ j, s.reqs.get? j = some .enqueued →
      (stepF s .refreshErr).reqs.get? j = some .rejectedFinal := by
  refine ⟨by simp [stepF, h, Store.empty], by simp [stepF, h, Store.empty],
    by simp [stepF, h, Store.empty], by simp [stepF, h],
    by simp [stepF, h], ?_⟩
  intro j hj
  have hm : (s.reqs.map releaseErr).get? j = (s.reqs.get? j).map releaseErr := by
    simp [List.get?_eq_getElem?]
  simp only [stepF, if_neg h]
  rw [hm, hj]
  rfl

theorem terminal_failure_clears_before_release_witness :
    (stepF ⟨⟨some "a0", some "r1", some "u"⟩, true, [1],
        [.awaitingRefresh, .enqueued], 1, 1, none, false⟩
        .refreshErr).store.access_token = none ∧
    (stepF ⟨⟨some "a0", some "r1", some "u"⟩, true, [1],
        [.awaitingRefresh, .enqueued], 1, 1, none, false⟩
        .refreshErr).reqs.get? 1 = some .rejectedFinal :=
  ⟨(terminal_failure_clears_before_release
      ⟨⟨some "a0", some "r1", some "u"⟩, true, [1],
        [.awaitingRefresh, .enqueued], 1, 1, none, false⟩ (by decide)).1,
   (terminal_failure_clears_before_release
      ⟨⟨some "a0", some "r1", some "u"⟩, true, [1],
        [.awaitingRefresh, .enqueued], 1, 1, none, false⟩
      (by decide)).2.2.2.2.2 1 (by decide)⟩

/-- C3 counterexample: with no refresh token stored, request 0's 401
settles its cycle by clearing storage and rejecting request 0, but the
coordinator does not return to Idle: `isRefreshing` stays `true` with no
refresh outstanding (a settle event is a no-op, as the last conjunct
shows), and request 1's subsequent 401 enqueues it onto a queue that no
settling cycle will ever release. -/
theorem no_refresh_token_coordinator_stuck :
    (runEvents (init 2 ⟨some "a", none, some "u"⟩ none)
        [.fail401 0, .fail401 1]).isRefreshing = true ∧
    (runEvents (init 2 ⟨some "a", none, some "u"⟩ none)
        [.fail401 0, .fail401 1]).failedQueue = [1] ∧
    (runEvents (init 2 ⟨some "a", none, some "u"⟩ none)
        [.fail401 0, .fail401 1]).outstanding = 0 ∧
    stepF (runEvents (init 2 ⟨some "a", none, some "u"⟩ none)
        [.fail401 0, .fail401 1]) .refreshErr
      = runEvents (init 2 ⟨some "a", none, some "u"⟩ none)
          [.fail401 0, .fail401 1] := by
  refine ⟨?_, ?_, ?_, ?_⟩ <;> decide

/-- C3 amended: when the in-flight refresh network call settles, every
waiter enqueued during the cycle is released exactly once — it leaves the
`enqueued` phase (resolved into a replay on success, rejected on failure)
and the queue is emptied in the same atomic block, so no waiter is left
pending or double-released, and the flag returns to Idle.  But when the
handler finds no refresh token, it clears storage and rejects only the
triggering request, leaving the `isRefreshing` flag set and the queue
untouched: no waiter is released and the coordinator does not return to
Idle. -/
theorem waiter_release_exactly_once
    (s : SysState) (tok : String) (rot : Option String)
    (h : s.outstanding ≠ 0) :
    ((stepF s (.refreshOk tok rot)).failedQueue = [] ∧
     (stepF s (.refreshOk tok rot)).isRefreshing = false ∧
     ∀ j, s.reqs.get? j = some .enqueued →
       (stepF s (.refreshOk tok rot)).reqs.get? j
         = some (.replaying false)) ∧
    ((stepF s .refreshErr).failedQueue = [] ∧
     (stepF s .refreshErr).isRefreshing = false ∧
     ∀ j, s.reqs.get? j = some .enqueued →
       (stepF s .refreshErr).reqs.get? j = some .rejectedFinal) ∧
    (∀ (t : SysState) (i : Nat), t.isRefreshing = false →
       t.store.refresh_token = none → t.reqs.get? i = some .pending →
       (stepF t (.fail401 i)).isRefreshing = true ∧
       (stepF t (.fail401 i)).outstanding = t.outstanding ∧
       (stepF t (.fail401 i)).failedQueue = t.failedQueue ∧
       (stepF t (.fail401 i)).reqs.get? i = some .rejectedFinal) := by
  refine ⟨⟨by simp [stepF, h], by simp [stepF, h], ?_⟩,
          ⟨by simp [stepF, h], by simp [stepF, h], ?_⟩, ?_⟩
  · intro j hj
    have hm : (s.reqs.map releaseOk).get? j
        = (s.reqs.get? j).map releaseOk := by
      simp [List.get?_eq_getElem?]
    simp only [stepF, if_neg h]
    rw [hm, hj]
    rfl
  · intro j hj
    have hm : (s.reqs.map releaseErr).get? j
        = (s.reqs.get? j).map releaseErr := by
      simp [List.get?_eq_getElem?]
    simp only [stepF, if_neg h]
    rw [hm, hj]
    rfl
  · intro t i ht hrt hi
    have h' : t.reqs[i]? = some ReqPhase.pending := by
      simpa [List.get?_eq_getElem?] using hi
    have hset : (t.reqs.set i ReqPhase.rejectedFinal)[i]? =
        some ReqPhase.rejectedFinal := by
      simp [List.getElem?_set_self', h']
    simp only [stepF, hi]
    simp [handleAuthFail, ht, hrt, hset]

theorem waiter_release_exactly_once_witness :
    (stepF ⟨⟨some "a0", some "r1", some "u"⟩, true, [1],
        [.awaitingRefresh, .enqueued], 1, 1, none, false⟩
        (.refreshOk "a1" none)).reqs.get? 1 = some (.replaying false) :=
  ((waiter_release_exactly_once
      ⟨⟨some "a0", some "r1", some "u"⟩, true, [1],
        [.awaitingRefresh, .enqueued], 1, 1, none, false⟩
      "a1" none (by decide)).1).2.2 1 (by decide)

/-- C4 failing trace: request 1 is enqueued as a waiter during request
0's refresh cycle; the refresh succeeds and request 1 is replayed — but
the source never set `_retry` on the queued request (lines 66–73), so
when the replay receives another 401, request 1 starts a second refresh
cycle (`refreshIssued` reaches 2 and request 1 is again the leader)
instead of propagating the failure to the caller. -/
theorem waiter_replay_missing_retry_mark :
    (runEvents (init 2 ⟨some "a0", some "r0", some "u"⟩ none)
        [.fail401 0, .fail401 1, .refreshOk "a1" none,
         .fail401 1]).refreshIssued = 2 ∧
    (runEvents (init 2 ⟨some "a0", some "r0", some "u"⟩ none)
        [.fail401 0, .fail401 1, .refreshOk "a1" none,
         .fail401 1]).reqs.get? 1 = some .awaitingRefresh := by
  refine ⟨?_, ?_⟩ <;> decide
